import Mathlib

/-!
Verification development for the `serialport-emulator` repository
(CanSat flight-telemetry simulators).

The Python sources are shallowly embedded:

* `Py` — executable models of the Python string operations used by the
  command dispatchers (`str.split(sep)`, `str.strip()`, `str.upper()`).
* `TelemetryGenerator` — `telemetry_generator.py` (checksum with the
  150-character truncation).
* `CansatSimulation` — `cansat_simulation.py` (the 2026-profile
  simulator: command dispatcher, flight state machine, transmit tick,
  checksum with the 200-character truncation).
* `CansatSimulation2026` — `cansat_simulation_2026.py` (the paraglider
  variant: command dispatcher, flight state machine, run-loop tick).
* `CansatSimulation.Synth` — the sensor-value synthesizer of
  `cansat_simulation.py` over the reals.  Each `random.uniform(a, b)` /
  `random.randint(a, b)` call is modelled by a draw parameter together
  with a validity predicate `a ≤ draw ≤ b`; Python's `round(x, n)`
  (float, round-half-even) is modelled by exact decimal rounding
  (round-half-up); the two differ only at exact ties, which no bound in
  this development touches.
-/

namespace Py

/-- Model of Python `str.split(sep)` for a one-character separator,
on the character list of the string.  `''.split(',') = ['']`,
`'a,,b'.split(',') = ['a', '', 'b']`. -/
def splitChars (sep : Char) : List Char → List (List Char)
  | [] => [[]]
  | c :: cs =>
    let r := splitChars sep cs
    if c = sep then [] :: r
    else (c :: r.headD []) :: r.tail

/-- Model of Python `str.split(sep)` returning strings. -/
def split (sep : Char) (s : String) : List String :=
  (splitChars sep s.data).map (fun l => String.mk l)

/-- Model of Python `str.upper()` (ASCII; the sources only compare
against ASCII keywords). -/
def upper (s : String) : String :=
  String.mk (s.data.map Char.toUpper)

/-- Model of Python `str.strip()`: remove leading and trailing
whitespace. -/
def strip (s : String) : String :=
  String.mk (((s.data.dropWhile Char.isWhitespace).reverse.dropWhile
    Char.isWhitespace).reverse)

end Py

namespace TelemetryGenerator

/-- Running character-code sum of `buatcs`' loop: add each character's
code and stop as soon as a NUL character has been added (the NUL itself
contributes `0`).  Shared by both checksum variants. -/
def csSum : List Char → Nat
  | [] => 0
  | c :: cs => if c = Char.ofNat 0 then c.toNat else c.toNat + csSum cs

/-- `telemetry_generator.buatcs`: sum the character codes of the first
150 characters (stopping at a NUL), masked to 16 bits
(`hasil & 0xFFFF`, embedded as `% 2 ^ 16`). -/
def buatcs (s : List Char) : Nat :=
  csSum (s.take 150) % 65536

/-- Python `~n & 0xFF` on an arbitrary integer: bitwise NOT is
`-n - 1`, and masking to 8 bits is `% 2 ^ 8` (Euclidean mod). -/
def pyNotAnd255 (n : ℤ) : ℤ :=
  (-n - 1) % 256

/-- The checksum trailer computed from a 16-bit `buatcs` result `cst`:
`cs1 = cst & 0xFF`, `cs2 = (cst >> 8) & 0xFF`,
`checksum = ~(cs1 + cs2) & 0xFF` (lines 148-151 of
`telemetry_generator.py`, lines 307-309 of `cansat_simulation.py`). -/
def checksumOf (cst : Nat) : ℤ :=
  pyNotAnd255 ((cst % 256 : Nat) + ((cst / 256) % 256 : Nat))

end TelemetryGenerator

namespace CansatSimulation

/-- `CanSatSimulator.buatcs` of `cansat_simulation.py`: identical to the
generator's checksum, but truncating at 200 characters
(`data_str[:200]`). -/
def buatcs (s : List Char) : Nat :=
  TelemetryGenerator.csSum (s.take 200) % 65536

end CansatSimulation

namespace CansatSimulation

/-- Mutable simulator state of `CanSatSimulator` in
`cansat_simulation.py` (the serial port, clock and constants are
external collaborators and are not part of the state). -/
structure State where
  telemetry_on : Bool
  simulation_mode : Bool
  flight_mode : Bool
  packet_count : Nat
  state : String
  cmd_echo : String
deriving DecidableEq, Repr

/-- `CanSatSimulator.__init__`: telemetry off, simulation off, flight
off, `packet_count = PACKET_COUNT_START = 0`, state `LAUNCH_PAD`,
default command echo `CXON`. -/
def initState : State :=
  { telemetry_on := false, simulation_mode := false, flight_mode := false,
    packet_count := 0, state := "LAUNCH_PAD", cmd_echo := "CXON" }

/-- `handle_cx`: turn telemetry on or off.  `ON` also leaves flight mode
(`CX mode is not flight mode`) and zeroes the packet count. -/
def handle_cx (on_off : String) (s : State) : State :=
  if on_off = "ON" then
    { s with telemetry_on := true, flight_mode := false, packet_count := 0 }
  else if on_off = "OFF" then
    { s with telemetry_on := false, flight_mode := false }
  else s

/-- `handle_fly`: enable telemetry if it was off, then start the flight
and zero the packet count. -/
def handle_fly (s : State) : State :=
  let s := if s.telemetry_on = false then { s with telemetry_on := true } else s
  { s with flight_mode := true, packet_count := 0 }

/-- `handle_sim`: `ENABLE` and `DISABLE` set `simulation_mode`;
`ACTIVATE` only prints. -/
def handle_sim (mode : String) (s : State) : State :=
  if mode = "ENABLE" then { s with simulation_mode := true }
  else if mode = "DISABLE" then { s with simulation_mode := false }
  else s

/-- `handle_cal`: zero the packet count ("calibrate altitude"). -/
def handle_cal (s : State) : State :=
  { s with packet_count := 0 }

/-- `process_command` of `cansat_simulation.py`: split on commas, reject
lines with fewer than 3 fields, set the command echo (a `CX` command
with a tail echoes `CX` + tail, anything else echoes the concatenation
of the stripped fields from index 2 on), then dispatch on the stripped,
upper-cased keyword.  `handle_st` only prints, so the `ST` branch is the
identity. -/
def process_command (s : State) (data : String) : State :=
  let parts := Py.split ',' data
  if parts.length < 3 then s
  else
    let cmd_main := Py.upper (Py.strip (parts.getD 2 ""))
    let cmd_tail :=
      if 4 ≤ parts.length then Py.upper (Py.strip (parts.getD 3 "")) else ""
    let s :=
      { s with cmd_echo :=
          if cmd_main = "CX" ∧ cmd_tail ≠ "" then cmd_main ++ cmd_tail
          else String.join ((parts.drop 2).map Py.strip) }
    if cmd_main = "CX" then handle_cx cmd_tail s
    else if cmd_main = "FLY" then handle_fly s
    else if cmd_main = "ST" then s
    else if cmd_main = "SIM" then handle_sim cmd_tail s
    else if cmd_main = "CAL" then handle_cal s
    else s

/-- `update_flight_state`: recompute the phase from the packet count
(forced to `LAUNCH_PAD` while flight mode is off). -/
def update_flight_state (s : State) : State :=
  if s.flight_mode = false then { s with state := "LAUNCH_PAD" }
  else
    { s with state :=
        if s.packet_count ≤ 5 then "LAUNCH_PAD"
        else if s.packet_count ≤ 30 then "ASCENT"
        else if s.packet_count ≤ 40 then "APOGEE"
        else if s.packet_count ≤ 65 then "DESCENT"
        else if s.packet_count ≤ 70 then "PROBE_RELEASE"
        else if s.packet_count ≤ 75 then "PAYLOAD_RELEASE"
        else "LANDED" }

/-- Deterministic, clock-free fields of one telemetry record built by
`transmit_telemetry` (the randomly synthesized sensor fields are
modelled separately in `CansatSimulation.Synth`, and the clock-derived
time strings are external). -/
structure Record where
  team_id : String
  packet_count : Nat
  mode : String
  state : String
  cmd_echo : String
deriving DecidableEq, Repr

/-- The body of `transmit_telemetry` after the 1-second cadence gate:
recompute the phase; if the flight is active, the phase is `LANDED` and
the packet count exceeds 80, stop the flight and the telemetry and emit
nothing; otherwise build the record (`MODE` is `F` in flight mode, else
`S`) and increment the packet count. -/
def transmit_telemetry (s : State) : State × Option Record :=
  let s := update_flight_state s
  if s.flight_mode = true ∧ s.state = "LANDED" ∧ 80 < s.packet_count then
    ({ s with flight_mode := false, telemetry_on := false }, none)
  else
    ({ s with packet_count := s.packet_count + 1 },
      some { team_id := "3121", packet_count := s.packet_count,
             mode := if s.flight_mode = true then "F" else "S",
             state := s.state, cmd_echo := s.cmd_echo })

/-- `STATES` of the 2026 mission constants: the ordered phase
sequence. -/
def STATES : List String :=
  ["LAUNCH_PAD", "ASCENT", "APOGEE", "DESCENT", "PROBE_RELEASE",
   "PAYLOAD_RELEASE", "LANDED"]

end CansatSimulation

namespace CansatSimulation2026

/-- Mutable simulator state of `CanSatSimulator` in
`cansat_simulation_2026.py`.  `mission_start` (a timestamp or `None`) is
modelled by the flag `mission_started`. -/
structure State where
  packet_count : Nat
  flight_mode : Bool
  telemetry_enabled : Bool
  simulation_enabled : Bool
  mission_started : Bool
  cmd_echo : String
deriving DecidableEq, Repr

/-- `__init__` of the paraglider variant. -/
def initState : State :=
  { packet_count := 0, flight_mode := false, telemetry_enabled := false,
    simulation_enabled := false, mission_started := false,
    cmd_echo := "CXON" }

/-- `get_flight_state`: the phase selected from the packet count
(`LAUNCH_PAD` while flight mode is off). -/
def get_flight_state (flight_mode : Bool) (t : Nat) : String :=
  if flight_mode = false then "LAUNCH_PAD"
  else if t ≤ 5 then "LAUNCH_PAD"
  else if t ≤ 30 then "ASCENT"
  else if t ≤ 40 then "APOGEE"
  else if t ≤ 65 then "DESCENT"
  else if t ≤ 70 then "PROBE_RELEASE"
  else if t ≤ 75 then "PAYLOAD_RELEASE"
  else "LANDED"

/-- `get_pg_state`: the paraglider phase selected from the packet
count. -/
def get_pg_state (flight_mode : Bool) (t : Nat) : String :=
  if flight_mode = false then "_PG_CRUISE"
  else if t ≤ 40 then "_PG_CRUISE"
  else if t ≤ 55 then "_PG_APPROACH"
  else if t ≤ 65 then "_PG_LOITER"
  else if t ≤ 70 then "_PG_FINAL"
  else if t ≤ 75 then "_PG_FLARE"
  else "_PG_LANDED"

/-- `process_command` of the paraglider variant: strip, split on commas,
require at least 3 fields and the `CMD` origin tag, then dispatch on the
upper-cased keyword.  Unknown keywords set the echo to the upper-cased
keyword. -/
def process_command (s : State) (cmd_line : String) : State :=
  let parts := Py.split ',' (Py.strip cmd_line)
  if parts.length < 3 then s
  else if parts.getD 0 "" ≠ "CMD" then s
  else
    let command := Py.upper (parts.getD 2 "")
    if command = "CX" then
      if 4 ≤ parts.length then
        let mode := Py.upper (parts.getD 3 "")
        if mode = "ON" then
          { s with telemetry_enabled := true, mission_started := true,
                   packet_count := 0, cmd_echo := "CXON" }
        else if mode = "OFF" then
          { s with telemetry_enabled := false, flight_mode := false,
                   cmd_echo := "CXOFF" }
        else s
      else s
    else if command = "FLY" then
      { s with flight_mode := true, telemetry_enabled := true,
               mission_started := true, packet_count := 0,
               cmd_echo := "FLY" }
    else if command = "CAL" then
      { s with packet_count := 0, cmd_echo := "CAL" }
    else if command = "SIM" then
      if 4 ≤ parts.length then
        let sim_mode := Py.upper (parts.getD 3 "")
        if sim_mode = "ENABLE" then
          { s with simulation_enabled := true, cmd_echo := "SIMENABLE" }
        else if sim_mode = "DISABLE" then
          { s with simulation_enabled := false, cmd_echo := "SIMDISABLE" }
        else s
      else s
    else if command = "SET_TARGET" then
      if 5 ≤ parts.length then { s with cmd_echo := "SETTARGET" } else s
    else { s with cmd_echo := command }

/-- Deterministic, clock-free fields of one record built by
`generate_telemetry` (random sensor fields and the clock-derived times
are modelled separately / external). -/
structure Record where
  team_id : String
  packet_count : Nat
  mode : String
  state : String
  pg_state : String
  cmd_echo : String
deriving DecidableEq, Repr

/-- `generate_telemetry`: the record's deterministic fields; `MODE` is
`F` in flight mode, else `S`. -/
def generate_telemetry (s : State) : Record :=
  { team_id := "1064", packet_count := s.packet_count,
    mode := if s.flight_mode = true then "F" else "S",
    state := get_flight_state s.flight_mode s.packet_count,
    pg_state := get_pg_state s.flight_mode s.packet_count,
    cmd_echo := s.cmd_echo }

/-- `send_telemetry`: build the record from the current state, then
increment the packet count. -/
def send_telemetry (s : State) : State × Record :=
  ({ s with packet_count := s.packet_count + 1 }, generate_telemetry s)

/-- One iteration of the telemetry part of `run`'s main loop: if
telemetry is enabled, send one record, then auto-stop (clear both
`flight_mode` and `telemetry_enabled`) when the flight is active, the
phase recomputed from the already-incremented packet count is `LANDED`
and that count exceeds 80.  Note the record has already been emitted
when the auto-stop check runs. -/
def run_tick (s : State) : State × Option Record :=
  if s.telemetry_enabled = true then
    let sr := send_telemetry s
    if sr.1.flight_mode = true ∧
        get_flight_state sr.1.flight_mode sr.1.packet_count = "LANDED" ∧
        80 < sr.1.packet_count then
      ({ sr.1 with telemetry_enabled := false, flight_mode := false },
        some sr.2)
    else (sr.1, some sr.2)
  else (s, none)

end CansatSimulation2026

example :
    (CansatSimulation.process_command CansatSimulation.initState
      "CMD,1,CX,ON").telemetry_on = true := by decide
example :
    (CansatSimulation.process_command CansatSimulation.initState
      "cmd,1,foo,bar").cmd_echo = "foobar" := by decide
example :
    (CansatSimulation2026.process_command CansatSimulation2026.initState
      "CMD,1064,FLY").flight_mode = true := by decide
example :
    (CansatSimulation2026.process_command CansatSimulation2026.initState
      "XXX,1064,FLY") = CansatSimulation2026.initState := by decide

/-- Modelled from the spec (§4.4): the checksum formula stated in the
specification's own words — sum the character codes up to the fixed
maximum count, stopping early at a NUL character; `sum16 = sum & 0xFFFF`;
`b0 = sum16 & 0xFF`; `b1 = (sum16 >> 8) & 0xFF`;
`checksum = (~(b0 + b1)) & 0xFF`. -/
def specChecksum (limit : Nat) (s : List Char) : ℤ :=
  let sum := (((s.take limit).takeWhile (fun c => c ≠ Char.ofNat 0)).map
    Char.toNat).sum
  let sum16 := sum % 65536
  let b0 := sum16 % 256
  let b1 := (sum16 / 256) % 256
  (-((b0 : ℤ) + (b1 : ℤ)) - 1) % 256

namespace CansatSimulation
namespace Synth

/-- Python `round(x, n)` modelled as exact decimal rounding to `n`
places (round-half-up; Python rounds half to even, the two differ only
at exact ties, which no bound in this development touches). -/
noncomputable def roundTo (n : ℕ) (x : ℝ) : ℝ :=
  (round (x * 10 ^ n) : ℤ) / 10 ^ n

/-- `BASE_LAT` of `cansat_simulation.py`. -/
noncomputable def BASE_LAT : ℝ := -7.275763964907654

/-- `BASE_LON` of `cansat_simulation.py`. -/
noncomputable def BASE_LON : ℝ := 112.79431652372989

/-- `MAX_DISTANCE_KM` of `cansat_simulation.py`. -/
noncomputable def MAX_DISTANCE_KM : ℝ := 2.0

/-- The sampling radius (in degrees) of `random_coordinates`: in flight
mode it is `MAX_DISTANCE_KM * min(packet_count / 100, 1) / 111`, on the
ground a fixed `0.1 / 111`. -/
noncomputable def radius (s : State) : ℝ :=
  if s.flight_mode = true then
    MAX_DISTANCE_KM * min ((s.packet_count : ℝ) / 100) 1 / 111
  else 0.1 / 111

/-- `random_coordinates`: from a drawn bearing `angle ∈ [0, 2π]` and a
drawn radial `offset ∈ [0, radius]`, offset the base coordinate
(equirectangular: the longitude offset is scaled by
`1 / cos(radians(BASE_LAT))`), rounding both coordinates to 4 decimal
places. -/
noncomputable def random_coordinates (angle offset : ℝ) : ℝ × ℝ :=
  let lat_offset := offset * Real.cos angle
  let lon_offset :=
    offset * Real.sin angle / Real.cos (BASE_LAT * Real.pi / 180)
  (roundTo 4 (BASE_LAT + lat_offset), roundTo 4 (BASE_LON + lon_offset))

/-- `get_flight_altitude`: on the ground, a uniform draw in `[0, 0.5]`
rounded to 1 decimal; in flight, a deterministic profile of the packet
count `t` (curved ascent to 700 m for `t ≤ 30`, apogee for `t ≤ 40`,
accelerating descent for `t ≤ 80`, then landed) plus the branch's noise
draw, clamped at 0 and rounded to 1 decimal.  `noise` stands for the one
`random.uniform` call of the branch that is taken. -/
noncomputable def get_flight_altitude (flight_mode : Bool) (t : ℕ)
    (noise : ℝ) : ℝ :=
  if flight_mode = false then roundTo 1 noise
  else
    let altitude :=
      if t ≤ 30 then 700 * (((t : ℝ) / 30) ^ (1.5 : ℝ)) + noise
      else if t ≤ 40 then 700 + noise
      else if t ≤ 80 then
        max 0 (700 * (1 - (((t : ℝ) - 30 - 10) / 40) ^ 2) + noise)
      else noise
    roundTo 1 (max 0 altitude)

/-- One draw parameter per random call of `transmit_telemetry` /
`random_coordinates` / `get_flight_altitude`. -/
structure Draws where
  altNoise : ℝ
  temperature : ℝ
  pressure : ℝ
  voltage : ℝ
  current : ℝ
  gyro_r : ℝ
  gyro_p : ℝ
  gyro_y : ℝ
  accel_r : ℝ
  accel_p : ℝ
  accel_y : ℝ
  gpsAltNoise : ℝ
  gps_sats : ℤ
  angle : ℝ
  offset : ℝ

/-- The IMU branch condition of `transmit_telemetry`:
`self.flight_mode and self.state in ["ASCENT", "APOGEE", "DESCENT"]`. -/
def dynamicIMU (s : State) : Prop :=
  s.flight_mode = true ∧
    (s.state = "ASCENT" ∨ s.state = "APOGEE" ∨ s.state = "DESCENT")

instance (s : State) : Decidable (dynamicIMU s) := by
  unfold dynamicIMU; infer_instance

/-- Each draw lies within the bounds of the `random.uniform` /
`random.randint` call it models (the bounds of the altitude noise and of
the IMU draws depend on the branch the code takes). -/
def validDraws (s : State) (d : Draws) : Prop :=
  (if s.flight_mode = false then 0 ≤ d.altNoise ∧ d.altNoise ≤ 0.5
   else if s.packet_count ≤ 30 then -5 ≤ d.altNoise ∧ d.altNoise ≤ 5
   else if s.packet_count ≤ 40 then -10 ≤ d.altNoise ∧ d.altNoise ≤ 10
   else if s.packet_count ≤ 80 then -8 ≤ d.altNoise ∧ d.altNoise ≤ 8
   else 0 ≤ d.altNoise ∧ d.altNoise ≤ 1) ∧
  (5 ≤ d.temperature ∧ d.temperature ≤ 35) ∧
  (85 ≤ d.pressure ∧ d.pressure ≤ 103) ∧
  (3.5 ≤ d.voltage ∧ d.voltage ≤ 4.2) ∧
  (0.1 ≤ d.current ∧ d.current ≤ 0.5) ∧
  (if dynamicIMU s then
    (-50 ≤ d.gyro_r ∧ d.gyro_r ≤ 50) ∧ (-50 ≤ d.gyro_p ∧ d.gyro_p ≤ 50) ∧
    (-50 ≤ d.gyro_y ∧ d.gyro_y ≤ 50) ∧ (-10 ≤ d.accel_r ∧ d.accel_r ≤ 10) ∧
    (-10 ≤ d.accel_p ∧ d.accel_p ≤ 10) ∧ (-10 ≤ d.accel_y ∧ d.accel_y ≤ 10)
   else
    (-2 ≤ d.gyro_r ∧ d.gyro_r ≤ 2) ∧ (-2 ≤ d.gyro_p ∧ d.gyro_p ≤ 2) ∧
    (-2 ≤ d.gyro_y ∧ d.gyro_y ≤ 2) ∧
    (-0.5 ≤ d.accel_r ∧ d.accel_r ≤ 0.5) ∧
    (-0.5 ≤ d.accel_p ∧ d.accel_p ≤ 0.5) ∧
    (9.5 ≤ d.accel_y ∧ d.accel_y ≤ 10.5)) ∧
  (-10 ≤ d.gpsAltNoise ∧ d.gpsAltNoise ≤ 10) ∧
  (4 ≤ d.gps_sats ∧ d.gps_sats ≤ 12) ∧
  (0 ≤ d.angle ∧ d.angle ≤ 2 * Real.pi) ∧
  (0 ≤ d.offset ∧ d.offset ≤ radius s)

/-- The numeric sensor fields synthesized by one `transmit_telemetry`
tick. -/
structure Fields where
  altitude : ℝ
  temperature : ℝ
  pressure : ℝ
  voltage : ℝ
  current : ℝ
  gyro_r : ℝ
  gyro_p : ℝ
  gyro_y : ℝ
  accel_r : ℝ
  accel_p : ℝ
  accel_y : ℝ
  gps_altitude : ℝ
  gps_sats : ℤ
  gps_lat : ℝ
  gps_lon : ℝ

/-- The sensor-value synthesis of `transmit_telemetry` (lines 263-290 of
`cansat_simulation.py`), as a pure function of the state snapshot and
the draws.  `s` is the state after `update_flight_state` has run. -/
noncomputable def synthFields (s : State) (d : Draws) : Fields :=
  let altitude := get_flight_altitude s.flight_mode s.packet_count d.altNoise
  let coords := random_coordinates d.angle d.offset
  { altitude := altitude,
    temperature := roundTo 1 d.temperature,
    pressure := roundTo 1 d.pressure,
    voltage := roundTo 1 d.voltage,
    current := roundTo 2 d.current,
    gyro_r := roundTo 2 d.gyro_r,
    gyro_p := roundTo 2 d.gyro_p,
    gyro_y := roundTo 2 d.gyro_y,
    accel_r := roundTo 2 d.accel_r,
    accel_p := roundTo 2 d.accel_p,
    accel_y := roundTo 2 d.accel_y,
    gps_altitude := roundTo 1 (altitude + d.gpsAltNoise),
    gps_sats := d.gps_sats,
    gps_lat := coords.1,
    gps_lon := coords.2 }

/-- `altitude_values` of the 2026 mission constants: the per-phase
inclusive altitude range (the final branch is `LANDED`). -/
noncomputable def altitude_values (phase : String) : ℝ × ℝ :=
  if phase = "LAUNCH_PAD" then (0, 0.5)
  else if phase = "ASCENT" then (10, 700)
  else if phase = "APOGEE" then (680, 720)
  else if phase = "DESCENT" then (300, 680)
  else if phase = "PROBE_RELEASE" then (100, 300)
  else if phase = "PAYLOAD_RELEASE" then (10, 100)
  else (0, 1)

/-- The property claimed of every tick: each synthesized field lies
within the mission profile's configured inclusive range, the altitude
within the active phase's range. -/
def inRangeAll (s : State) (f : Fields) : Prop :=
  ((altitude_values s.state).1 ≤ f.altitude ∧
    f.altitude ≤ (altitude_values s.state).2) ∧
  (5 ≤ f.temperature ∧ f.temperature ≤ 35) ∧
  (85 ≤ f.pressure ∧ f.pressure ≤ 103) ∧
  (3.5 ≤ f.voltage ∧ f.voltage ≤ 4.2) ∧
  (0.1 ≤ f.current ∧ f.current ≤ 0.5) ∧
  (-50 ≤ f.gyro_r ∧ f.gyro_r ≤ 50) ∧
  (-50 ≤ f.gyro_p ∧ f.gyro_p ≤ 50) ∧
  (-50 ≤ f.gyro_y ∧ f.gyro_y ≤ 50) ∧
  (-10 ≤ f.accel_r ∧ f.accel_r ≤ 10) ∧
  (-10 ≤ f.accel_p ∧ f.accel_p ≤ 10) ∧
  (-10 ≤ f.accel_y ∧ f.accel_y ≤ 10) ∧
  (0 ≤ f.gps_altitude ∧ f.gps_altitude ≤ 750) ∧
  (4 ≤ f.gps_sats ∧ f.gps_sats ≤ 12)

/-- Equirectangular distance (km) between a fix and the base coordinate:
latitude offset and cosine-scaled longitude offset, 111 km per
degree. -/
noncomputable def equirect_km (lat lon : ℝ) : ℝ :=
  111 * Real.sqrt ((lat - BASE_LAT) ^ 2 +
    ((lon - BASE_LON) * Real.cos (BASE_LAT * Real.pi / 180)) ^ 2)

end Synth
end CansatSimulation

section RoundLemmas

/-- `round` is monotone. -/
theorem round_mono_le {x y : ℝ} (h : x ≤ y) : round x ≤ round y := by
  rw [round_eq, round_eq]
  exact Int.floor_le_floor (by linarith)

/-- Decimal rounding preserves an upper bound that is a multiple of the
resolution. -/
theorem roundTo_le {n : ℕ} {x : ℝ} {b : ℤ} (h : x ≤ (b : ℝ) / 10 ^ n) :
    CansatSimulation.Synth.roundTo n x ≤ (b : ℝ) / 10 ^ n := by
  unfold CansatSimulation.Synth.roundTo
  have h10 : (0 : ℝ) < 10 ^ n := by positivity
  rw [div_le_div_iff_of_pos_right h10]
  have hx : x * 10 ^ n ≤ (b : ℝ) := by
    rw [div_eq_mul_inv] at h
    calc x * 10 ^ n ≤ ((b : ℝ) * (10 ^ n)⁻¹) * 10 ^ n := by
          exact mul_le_mul_of_nonneg_right h (le_of_lt h10)
      _ = (b : ℝ) := by field_simp
  have := round_mono_le hx
  rw [round_intCast] at this
  exact_mod_cast this

/-- Decimal rounding preserves a lower bound that is a multiple of the
resolution. -/
theorem le_roundTo {n : ℕ} {x : ℝ} {a : ℤ} (h : (a : ℝ) / 10 ^ n ≤ x) :
    (a : ℝ) / 10 ^ n ≤ CansatSimulation.Synth.roundTo n x := by
  unfold CansatSimulation.Synth.roundTo
  have h10 : (0 : ℝ) < 10 ^ n := by positivity
  rw [div_le_div_iff_of_pos_right h10]
  have hx : (a : ℝ) ≤ x * 10 ^ n := by
    rw [div_eq_mul_inv] at h
    calc (a : ℝ) = ((a : ℝ) * (10 ^ n)⁻¹) * 10 ^ n := by field_simp
      _ ≤ x * 10 ^ n := mul_le_mul_of_nonneg_right h (le_of_lt h10)
  have := round_mono_le hx
  rw [round_intCast] at this
  exact_mod_cast this

/-- Exact multiples of the resolution are fixed by decimal rounding. -/
theorem roundTo_eq_self (n : ℕ) (m : ℤ) :
    CansatSimulation.Synth.roundTo n ((m : ℝ) / 10 ^ n) =
      (m : ℝ) / 10 ^ n := by
  unfold CansatSimulation.Synth.roundTo
  have h10 : (10 : ℝ) ^ n ≠ 0 := by positivity
  rw [div_mul_cancel₀ _ h10, round_intCast]

/-- Decimal rounding moves a value by at most half a resolution step. -/
theorem abs_roundTo_sub (n : ℕ) (x : ℝ) :
    |CansatSimulation.Synth.roundTo n x - x| ≤ 1 / (2 * 10 ^ n) := by
  unfold CansatSimulation.Synth.roundTo
  have h10 : (0 : ℝ) < 10 ^ n := by positivity
  have h := abs_sub_round (x * 10 ^ n)
  rw [abs_sub_comm] at h
  have heq : (round (x * 10 ^ n) : ℝ) / 10 ^ n - x =
      ((round (x * 10 ^ n) : ℝ) - x * 10 ^ n) / 10 ^ n := by
    field_simp
    ring
  rw [heq, abs_div, abs_of_pos h10, div_le_div_iff₀ h10 (by positivity)]
  nlinarith [h]

end RoundLemmas

example : Py.split ',' "CMD,1,CX,ON" = ["CMD", "1", "CX", "ON"] := by decide
example : Py.split ',' "" = [""] := by decide
example : Py.upper (Py.strip " fly ") = "FLY" := by decide
example : TelemetryGenerator.buatcs "AB".data = 131 := by decide
example : TelemetryGenerator.checksumOf 131 = 124 := by decide

section ChecksumTheorems

/-- The loop sum of `buatcs` equals the sum of the character codes up to
(and excluding) the first NUL character: the NUL itself contributes
code `0`. -/
theorem csSum_eq_takeWhile (l : List Char) :
    TelemetryGenerator.csSum l =
      ((l.takeWhile (fun c => c ≠ Char.ofNat 0)).map Char.toNat).sum := by
  induction l with
  | nil => rfl
  | cons c cs ih =>
    by_cases h : c = Char.ofNat 0
    · subst h
      simp [TelemetryGenerator.csSum]
    · simp [TelemetryGenerator.csSum, h, ih]

/-- An integer `% 256` lies in `[0, 255]`. -/
theorem emod256_mem (n : ℤ) : 0 ≤ n % 256 ∧ n % 256 ≤ 255 := by
  constructor
  · exact Int.emod_nonneg n (by norm_num)
  · have := Int.emod_lt_of_pos n (show (0 : ℤ) < 256 by norm_num)
    omega

/-- C1: for every rendered record line (as a character list, trailing
delimiter included), the appended checksum equals the specification's
formula — character-code sum truncated to the profile's maximum count
(200 for `cansat_simulation.py`, 150 for `telemetry_generator.py`),
stopping early at a NUL; `sum16 = sum & 0xFFFF`; `b0 = sum16 & 0xFF`;
`b1 = (sum16 >> 8) & 0xFF`; `checksum = (~(b0 + b1)) & 0xFF` — and is an
integer in `[0, 255]`; it is a pure function of the characters. -/
theorem checksum_matches_spec (s : List Char) :
    TelemetryGenerator.checksumOf (CansatSimulation.buatcs s) =
      specChecksum 200 s ∧
    TelemetryGenerator.checksumOf (TelemetryGenerator.buatcs s) =
      specChecksum 150 s ∧
    (0 ≤ TelemetryGenerator.checksumOf (CansatSimulation.buatcs s) ∧
      TelemetryGenerator.checksumOf (CansatSimulation.buatcs s) ≤ 255) ∧
    (0 ≤ TelemetryGenerator.checksumOf (TelemetryGenerator.buatcs s) ∧
      TelemetryGenerator.checksumOf (TelemetryGenerator.buatcs s) ≤ 255) := by
  refine ⟨?_, ?_, emod256_mem _, emod256_mem _⟩
  · unfold TelemetryGenerator.checksumOf TelemetryGenerator.pyNotAnd255
      CansatSimulation.buatcs specChecksum
    rw [csSum_eq_takeWhile]
  · unfold TelemetryGenerator.checksumOf TelemetryGenerator.pyNotAnd255
      TelemetryGenerator.buatcs specChecksum
    rw [csSum_eq_takeWhile]

end ChecksumTheorems

section PhaseMonotone

/-- Position of a phase name in the mission profile's ordered phase
sequence. -/
def phaseIdx (p : String) : Nat :=
  CansatSimulation.STATES.indexOf p

/-- Numeric rank of the phase selected from a packet count while the
flight is active. -/
def phaseRank (t : Nat) : Nat :=
  if t ≤ 5 then 0
  else if t ≤ 30 then 1
  else if t ≤ 40 then 2
  else if t ≤ 65 then 3
  else if t ≤ 70 then 4
  else if t ≤ 75 then 5
  else 6

/-- While the flight is active, the index of the selected phase in the
ordered phase sequence is its rank. -/
theorem get_flight_state_idx (t : Nat) :
    phaseIdx (CansatSimulation2026.get_flight_state true t) = phaseRank t := by
  unfold CansatSimulation2026.get_flight_state phaseRank
  rw [if_neg (by decide : ¬(true = false))]
  split_ifs <;> decide

/-- The phase rank is monotone in the packet count. -/
theorem phaseRank_mono {p q : Nat} (h : p ≤ q) : phaseRank p ≤ phaseRank q := by
  unfold phaseRank
  split_ifs <;> omega

/-- While the flight is active, `update_flight_state` of
`cansat_simulation.py` selects the same phase as `get_flight_state` of
the paraglider variant. -/
theorem update_flight_state_state (s : CansatSimulation.State)
    (h : s.flight_mode = true) :
    (CansatSimulation.update_flight_state s).state =
      CansatSimulation2026.get_flight_state true s.packet_count := by
  unfold CansatSimulation.update_flight_state
    CansatSimulation2026.get_flight_state
  rw [h]
  rw [if_neg (by decide : ¬(true = false)), if_neg (by decide : ¬(true = false))]

/-- C3: while `flight_active` is true, the phase selected from the
packet count is monotonically non-decreasing in the packet count — in
the profile's ordered phase sequence, the phase at count `p` precedes or
equals the phase at count `q ≥ p`, both for `get_flight_state` of
`cansat_simulation_2026.py` and for `update_flight_state` of
`cansat_simulation.py`: phases never regress during a flight. -/
theorem phase_from_count_monotone :
    (∀ p q : Nat, p ≤ q →
      phaseIdx (CansatSimulation2026.get_flight_state true p) ≤
        phaseIdx (CansatSimulation2026.get_flight_state true q)) ∧
    (∀ s t : CansatSimulation.State, s.flight_mode = true →
      t.flight_mode = true → s.packet_count ≤ t.packet_count →
      phaseIdx (CansatSimulation.update_flight_state s).state ≤
        phaseIdx (CansatSimulation.update_flight_state t).state) := by
  constructor
  · intro p q hpq
    rw [get_flight_state_idx, get_flight_state_idx]
    exact phaseRank_mono hpq
  · intro s t hs ht hc
    rw [update_flight_state_state s hs, update_flight_state_state t ht,
      get_flight_state_idx, get_flight_state_idx]
    exact phaseRank_mono hc

/-- Witness for C3 at the concrete counts 3 ≤ 50 and two concrete
states. -/
theorem phase_from_count_monotone_w :
    phaseIdx (CansatSimulation2026.get_flight_state true 3) ≤
      phaseIdx (CansatSimulation2026.get_flight_state true 50) ∧
    phaseIdx (CansatSimulation.update_flight_state
        { telemetry_on := true, simulation_mode := false,
          flight_mode := true, packet_count := 7, state := "LAUNCH_PAD",
          cmd_echo := "CXON" }).state ≤
      phaseIdx (CansatSimulation.update_flight_state
        { telemetry_on := true, simulation_mode := false,
          flight_mode := true, packet_count := 77, state := "LAUNCH_PAD",
          cmd_echo := "CXON" }).state :=
  ⟨phase_from_count_monotone.1 3 50 (by decide),
   phase_from_count_monotone.2 _ _ rfl rfl (by decide)⟩

end PhaseMonotone

section ModeAndRejection

/-- `update_flight_state` only rewrites the phase: flight mode is
untouched. -/
theorem update_flight_state_flight (s : CansatSimulation.State) :
    (CansatSimulation.update_flight_state s).flight_mode = s.flight_mode := by
  unfold CansatSimulation.update_flight_state
  split_ifs <;> rfl

/-- `update_flight_state` only rewrites the phase: the packet count is
untouched. -/
theorem update_flight_state_pc (s : CansatSimulation.State) :
    (CansatSimulation.update_flight_state s).packet_count =
      s.packet_count := by
  unfold CansatSimulation.update_flight_state
  split_ifs <;> rfl

/-- `update_flight_state` only rewrites the phase: the telemetry flag is
untouched. -/
theorem update_flight_state_tel (s : CansatSimulation.State) :
    (CansatSimulation.update_flight_state s).telemetry_on =
      s.telemetry_on := by
  unfold CansatSimulation.update_flight_state
  split_ifs <;> rfl

/-- C6: in every emitted telemetry record the `MODE` field renders `F`
when `flight_active` is true at record-build time and `S` otherwise —
for the record emitted by `transmit_telemetry` of `cansat_simulation.py`
and for the record built by `generate_telemetry` of
`cansat_simulation_2026.py`. -/
theorem mode_field_flight :
    (∀ (s : CansatSimulation.State) (r : CansatSimulation.Record),
      (CansatSimulation.transmit_telemetry s).2 = some r →
      r.mode = if s.flight_mode = true then "F" else "S") ∧
    (∀ s : CansatSimulation2026.State,
      (CansatSimulation2026.generate_telemetry s).mode =
        if s.flight_mode = true then "F" else "S") := by
  constructor
  · intro s r h
    simp only [CansatSimulation.transmit_telemetry] at h
    split at h
    · exact absurd h (by simp)
    · rw [Option.some_inj] at h
      rw [← h]
      simp only [update_flight_state_flight]
  · intro s
    rfl

/-- Witness for C6: the grounded initial state emits a record whose
`MODE` field is `S`. -/
theorem mode_field_flight_w :
    ({ team_id := "3121", packet_count := 0, mode := "S",
       state := "LAUNCH_PAD", cmd_echo := "CXON" } :
      CansatSimulation.Record).mode =
      if CansatSimulation.initState.flight_mode = true then "F" else "S" :=
  mode_field_flight.1 CansatSimulation.initState _ (by decide)

/-- C7: an inbound line that splits into fewer than 3 comma-separated
fields leaves the whole flight state unchanged in both dispatchers (the
embedded dispatchers are total functions, so no exception is raised;
in the sources the only list indexing is guarded by the length
checks). -/
theorem short_line_no_change :
    (∀ (s : CansatSimulation.State) (data : String),
      (Py.split ',' data).length < 3 →
      CansatSimulation.process_command s data = s) ∧
    (∀ (s : CansatSimulation2026.State) (data : String),
      (Py.split ',' (Py.strip data)).length < 3 →
      CansatSimulation2026.process_command s data = s) := by
  constructor
  · intro s data h
    unfold CansatSimulation.process_command
    rw [if_pos h]
  · intro s data h
    unfold CansatSimulation2026.process_command
    rw [if_pos h]

/-- Witness for C7: a one-field line changes nothing in either
simulator. -/
theorem short_line_no_change_w :
    CansatSimulation.process_command CansatSimulation.initState "hello" =
      CansatSimulation.initState ∧
    CansatSimulation2026.process_command CansatSimulation2026.initState
        "hello" = CansatSimulation2026.initState :=
  ⟨short_line_no_change.1 _ _ (by decide),
   short_line_no_change.2 _ _ (by decide)⟩

end ModeAndRejection


section AutoStop

/-- Past packet count 75 the selected phase is the terminal `LANDED`
phase. -/
theorem get_flight_state_landed (t : Nat) (h : 75 < t) :
    CansatSimulation2026.get_flight_state true t = "LANDED" := by
  unfold CansatSimulation2026.get_flight_state
  rw [if_neg (by decide : ¬(true = false)), if_neg (by omega),
    if_neg (by omega), if_neg (by omega), if_neg (by omega),
    if_neg (by omega), if_neg (by omega)]

/-- With telemetry disabled, a `run` iteration of the paraglider variant
emits nothing. -/
theorem run_tick_off (s : CansatSimulation2026.State)
    (h : s.telemetry_enabled = false) :
    (CansatSimulation2026.run_tick s).2 = none := by
  unfold CansatSimulation2026.run_tick
  rw [if_neg (by rw [h]; decide)]

/-- Characterization of a `run` iteration of the paraglider variant when
the flight is active past the grace window: the record is sent, then
both flags are cleared. -/
theorem run_tick_stop (s : CansatSimulation2026.State)
    (ht : s.telemetry_enabled = true) (hf : s.flight_mode = true)
    (hpc : 80 < s.packet_count) :
    CansatSimulation2026.run_tick s =
      (CansatSimulation2026.State.mk (s.packet_count + 1) false false
        s.simulation_enabled s.mission_started s.cmd_echo,
       some (CansatSimulation2026.generate_telemetry s)) := by
  have hland : CansatSimulation2026.get_flight_state s.flight_mode
      (s.packet_count + 1) = "LANDED" := by
    rw [hf]
    exact get_flight_state_landed _ (by omega)
  simp only [CansatSimulation2026.run_tick,
    CansatSimulation2026.send_telemetry]
  rw [if_pos ht]
  split
  · rfl
  · rename_i h
    exfalso
    apply h
    refine ⟨hf, hland, ?_⟩
    show 80 < s.packet_count + 1
    omega

/-- Counterexample to C4: in `cansat_simulation_2026.py`, with the
flight active, the recomputed phase `LANDED` and the packet count past
the grace window (81 > 80), the next `run` iteration does clear both
flags but still emits that tick's record — the claim's "emits no record
on that tick" fails. -/
theorem auto_stop_cex :
    (CansatSimulation2026.State.mk 81 true true false true
        "FLY").flight_mode = true ∧
    (CansatSimulation2026.State.mk 81 true true false true
        "FLY").telemetry_enabled = true ∧
    CansatSimulation2026.get_flight_state true 81 = "LANDED" ∧
    80 < (81 : Nat) ∧
    (CansatSimulation2026.run_tick (CansatSimulation2026.State.mk 81 true
        true false true "FLY")).1.flight_mode = false ∧
    (CansatSimulation2026.run_tick (CansatSimulation2026.State.mk 81 true
        true false true "FLY")).1.telemetry_enabled = false ∧
    (CansatSimulation2026.run_tick (CansatSimulation2026.State.mk 81 true
        true false true "FLY")).2 ≠ none := by decide

/-- C4 (amended): once `flight_active` is true and `packet_count`
exceeds the grace window (80), the very next tick clears both
`flight_active` and `telemetry_enabled` in both simulators; in
`cansat_simulation.py` that tick emits no record, while in
`cansat_simulation_2026.py` the record of that tick has already been
emitted when the auto-stop check runs, and suppression starts on the
following tick. -/
theorem auto_stop_amended :
    (∀ s : CansatSimulation.State, s.flight_mode = true →
      (CansatSimulation.update_flight_state s).state = "LANDED" →
      80 < s.packet_count →
      (CansatSimulation.transmit_telemetry s).1.flight_mode = false ∧
      (CansatSimulation.transmit_telemetry s).1.telemetry_on = false ∧
      (CansatSimulation.transmit_telemetry s).2 = none) ∧
    (∀ s : CansatSimulation2026.State, s.telemetry_enabled = true →
      s.flight_mode = true → 80 < s.packet_count →
      (CansatSimulation2026.run_tick s).1.flight_mode = false ∧
      (CansatSimulation2026.run_tick s).1.telemetry_enabled = false ∧
      (CansatSimulation2026.run_tick s).2 ≠ none ∧
      (CansatSimulation2026.run_tick (CansatSimulation2026.run_tick s).1).2
        = none) := by
  constructor
  · intro s hf hl hpc
    have hc : (CansatSimulation.update_flight_state s).flight_mode = true ∧
        (CansatSimulation.update_flight_state s).state = "LANDED" ∧
        80 < (CansatSimulation.update_flight_state s).packet_count := by
      refine ⟨?_, hl, ?_⟩
      · rw [update_flight_state_flight]; exact hf
      · rw [update_flight_state_pc]; exact hpc
    simp only [CansatSimulation.transmit_telemetry]
    rw [if_pos hc]
    exact ⟨rfl, rfl, rfl⟩
  · intro s ht hf hpc
    rw [run_tick_stop s ht hf hpc]
    refine ⟨rfl, rfl, by simp, ?_⟩
    exact run_tick_off _ rfl

/-- Witness for C4 (amended) at concrete landed states in both
simulators. -/
theorem auto_stop_amended_w :
    ((CansatSimulation.transmit_telemetry
        (CansatSimulation.State.mk true false true 81 "LANDED"
          "FLY")).1.flight_mode = false ∧
      (CansatSimulation.transmit_telemetry
        (CansatSimulation.State.mk true false true 81 "LANDED"
          "FLY")).1.telemetry_on = false ∧
      (CansatSimulation.transmit_telemetry
        (CansatSimulation.State.mk true false true 81 "LANDED"
          "FLY")).2 = none) ∧
    ((CansatSimulation2026.run_tick
        (CansatSimulation2026.State.mk 90 true true false true
          "FLY")).1.flight_mode = false ∧
      (CansatSimulation2026.run_tick
        (CansatSimulation2026.State.mk 90 true true false true
          "FLY")).1.telemetry_enabled = false ∧
      (CansatSimulation2026.run_tick
        (CansatSimulation2026.State.mk 90 true true false true
          "FLY")).2 ≠ none ∧
      (CansatSimulation2026.run_tick (CansatSimulation2026.run_tick
        (CansatSimulation2026.State.mk 90 true true false true
          "FLY")).1).2 = none) :=
  ⟨auto_stop_amended.1 _ rfl (by decide) (by decide),
   auto_stop_amended.2 _ rfl rfl (by decide)⟩

end AutoStop

section Dispatcher

/-- The events after which `cansat_simulation.py` zeroes `packet_count`:
a well-formed line whose keyword is `CAL`, `FLY`, or `CX` with argument
`ON`. -/
def resetEvent (data : String) : Prop :=
  3 ≤ (Py.split ',' data).length ∧
  (Py.upper (Py.strip ((Py.split ',' data).getD 2 "")) = "CAL" ∨
   Py.upper (Py.strip ((Py.split ',' data).getD 2 "")) = "FLY" ∨
   (Py.upper (Py.strip ((Py.split ',' data).getD 2 "")) = "CX" ∧
    4 ≤ (Py.split ',' data).length ∧
    Py.upper (Py.strip ((Py.split ',' data).getD 3 "")) = "ON"))

instance (data : String) : Decidable (resetEvent data) := by
  unfold resetEvent; infer_instance

/-- The events after which `cansat_simulation_2026.py` zeroes
`packet_count`: a well-formed `CMD` line whose keyword is `CAL`, `FLY`,
or `CX` with argument `ON`. -/
def resetEvent2026 (data : String) : Prop :=
  3 ≤ (Py.split ',' (Py.strip data)).length ∧
  (Py.split ',' (Py.strip data)).getD 0 "" = "CMD" ∧
  (Py.upper ((Py.split ',' (Py.strip data)).getD 2 "") = "CAL" ∨
   Py.upper ((Py.split ',' (Py.strip data)).getD 2 "") = "FLY" ∨
   (Py.upper ((Py.split ',' (Py.strip data)).getD 2 "") = "CX" ∧
    4 ≤ (Py.split ',' (Py.strip data)).length ∧
    Py.upper ((Py.split ',' (Py.strip data)).getD 3 "") = "ON"))

instance (data : String) : Decidable (resetEvent2026 data) := by
  unfold resetEvent2026; infer_instance

/-- C5: `packet_count` is 0 right after simulator start, and a command
dispatch zeroes it exactly when the line is a successful calibrate,
start-flight, or telemetry-enable command (`CAL`, `FLY`, `CX ON`);
every other dispatch leaves it unchanged — in both simulators. -/
theorem packet_count_reset_exact :
    CansatSimulation.initState.packet_count = 0 ∧
    CansatSimulation2026.initState.packet_count = 0 ∧
    (∀ (s : CansatSimulation.State) (data : String), resetEvent data →
      (CansatSimulation.process_command s data).packet_count = 0) ∧
    (∀ (s : CansatSimulation.State) (data : String), ¬ resetEvent data →
      (CansatSimulation.process_command s data).packet_count =
        s.packet_count) ∧
    (∀ (s : CansatSimulation2026.State) (data : String),
      resetEvent2026 data →
      (CansatSimulation2026.process_command s data).packet_count = 0) ∧
    (∀ (s : CansatSimulation2026.State) (data : String),
      ¬ resetEvent2026 data →
      (CansatSimulation2026.process_command s data).packet_count =
        s.packet_count) := by
  refine ⟨rfl, rfl, ?_, ?_, ?_, ?_⟩
  · intro s data h
    obtain ⟨h3, hcmd⟩ := h
    simp only [CansatSimulation.process_command]
    rw [if_neg (Nat.not_lt.mpr h3)]
    rcases hcmd with hc | hc | ⟨hc, h4, hon⟩
    · rw [hc, if_neg (by decide), if_neg (by decide), if_neg (by decide),
        if_neg (by decide), if_pos rfl]
      rfl
    · rw [hc, if_neg (by decide), if_pos rfl]
      rfl
    · rw [hc, if_pos rfl, if_pos h4, hon]
      rfl
  · intro s data h
    by_cases h3 : (Py.split ',' data).length < 3
    · simp only [CansatSimulation.process_command]
      rw [if_pos h3]
    · have h3' : 3 ≤ (Py.split ',' data).length := by omega
      have hd : ¬ (Py.upper (Py.strip ((Py.split ',' data).getD 2 "")) =
            "CAL" ∨
          Py.upper (Py.strip ((Py.split ',' data).getD 2 "")) = "FLY" ∨
          (Py.upper (Py.strip ((Py.split ',' data).getD 2 "")) = "CX" ∧
            4 ≤ (Py.split ',' data).length ∧
            Py.upper (Py.strip ((Py.split ',' data).getD 3 "")) = "ON")) :=
        fun hh => h ⟨h3', hh⟩
      push_neg at hd
      obtain ⟨hcal, hfly, hcx3⟩ := hd
      simp only [CansatSimulation.process_command]
      rw [if_neg h3]
      by_cases hcx : Py.upper (Py.strip ((Py.split ',' data).getD 2 "")) =
          "CX"
      · rw [if_pos hcx]
        by_cases h4 : 4 ≤ (Py.split ',' data).length
        · rw [if_pos h4]
          have hon : Py.upper (Py.strip ((Py.split ',' data).getD 3 "")) ≠
              "ON" := fun hh => (hcx3 hcx h4) hh
          simp only [CansatSimulation.handle_cx]
          rw [if_neg hon]
          split_ifs <;> rfl
        · rw [if_neg h4]
          simp only [CansatSimulation.handle_cx]
          rw [if_neg (by decide), if_neg (by decide)]
      · rw [if_neg hcx, if_neg hfly]
        by_cases hst : Py.upper (Py.strip ((Py.split ',' data).getD 2 "")) =
            "ST"
        · rw [if_pos hst]
        · rw [if_neg hst]
          by_cases hsim :
              Py.upper (Py.strip ((Py.split ',' data).getD 2 "")) = "SIM"
          · rw [if_pos hsim]
            simp only [CansatSimulation.handle_sim]
            split_ifs <;> rfl
          · rw [if_neg hsim, if_neg hcal]
  · intro s data h
    obtain ⟨h3, hcmd0, hcmd⟩ := h
    simp only [CansatSimulation2026.process_command]
    rw [if_neg (Nat.not_lt.mpr h3), if_neg (not_not_intro hcmd0)]
    rcases hcmd with hc | hc | ⟨hc, h4, hon⟩
    · rw [hc, if_neg (by decide), if_neg (by decide), if_pos rfl]
    · rw [hc, if_neg (by decide), if_pos rfl]
    · rw [hc, if_pos rfl, if_pos h4, hon, if_pos rfl]
  · intro s data h
    by_cases h3 : (Py.split ',' (Py.strip data)).length < 3
    · simp only [CansatSimulation2026.process_command]
      rw [if_pos h3]
    · have h3' : 3 ≤ (Py.split ',' (Py.strip data)).length := by omega
      simp only [CansatSimulation2026.process_command]
      rw [if_neg h3]
      by_cases hcmd0 : (Py.split ',' (Py.strip data)).getD 0 "" = "CMD"
      · have hd : ¬ (Py.upper ((Py.split ',' (Py.strip data)).getD 2 "") =
              "CAL" ∨
            Py.upper ((Py.split ',' (Py.strip data)).getD 2 "") = "FLY" ∨
            (Py.upper ((Py.split ',' (Py.strip data)).getD 2 "") = "CX" ∧
              4 ≤ (Py.split ',' (Py.strip data)).length ∧
              Py.upper ((Py.split ',' (Py.strip data)).getD 3 "") =
                "ON")) := fun hh => h ⟨h3', hcmd0, hh⟩
        push_neg at hd
        obtain ⟨hcal, hfly, hcx3⟩ := hd
        rw [if_neg (not_not_intro hcmd0)]
        by_cases hcx : Py.upper ((Py.split ',' (Py.strip data)).getD 2 "") =
            "CX"
        · rw [if_pos hcx]
          by_cases h4 : 4 ≤ (Py.split ',' (Py.strip data)).length
          · rw [if_pos h4]
            have hon : Py.upper ((Py.split ',' (Py.strip data)).getD 3 "")
                ≠ "ON" := fun hh => (hcx3 hcx h4) hh
            rw [if_neg hon]
            split_ifs <;> rfl
          · rw [if_neg h4]
        · rw [if_neg hcx, if_neg hfly, if_neg hcal]
          by_cases hsim :
              Py.upper ((Py.split ',' (Py.strip data)).getD 2 "") = "SIM"
          · rw [if_pos hsim]
            split_ifs <;> rfl
          · rw [if_neg hsim]
            by_cases htgt :
                Py.upper ((Py.split ',' (Py.strip data)).getD 2 "") =
                  "SET_TARGET"
            · rw [if_pos htgt]
              split_ifs <;> rfl
            · rw [if_neg htgt]
      · rw [if_pos hcmd0]

/-- Witness for C5: `CMD,1,CAL` zeroes the count in both simulators, and
`CMD,1,ST,GPS` leaves it unchanged in both. -/
theorem packet_count_reset_exact_w :
    (CansatSimulation.process_command
      (CansatSimulation.State.mk true false true 42 "ASCENT" "FLY")
      "CMD,1,CAL").packet_count = 0 ∧
    (CansatSimulation.process_command
      (CansatSimulation.State.mk true false true 42 "ASCENT" "FLY")
      "CMD,1,ST,GPS").packet_count =
      (CansatSimulation.State.mk true false true 42 "ASCENT"
        "FLY").packet_count ∧
    (CansatSimulation2026.process_command
      (CansatSimulation2026.State.mk 42 true true false true "FLY")
      "CMD,1,CAL").packet_count = 0 ∧
    (CansatSimulation2026.process_command
      (CansatSimulation2026.State.mk 42 true true false true "FLY")
      "CMD,1,ST,GPS").packet_count =
      (CansatSimulation2026.State.mk 42 true true false true
        "FLY").packet_count :=
  ⟨packet_count_reset_exact.2.2.1 _ _ (by decide),
   packet_count_reset_exact.2.2.2.1 _ _ (by decide),
   packet_count_reset_exact.2.2.2.2.1 _ _ (by decide),
   packet_count_reset_exact.2.2.2.2.2 _ _ (by decide)⟩

end Dispatcher

section UnknownEcho

/-- Counterexample to C8: the well-formed line `CMD,1,FOO,BAR` has the
unrecognized keyword `FOO`, but `cansat_simulation.py` sets the echo to
the concatenation `FOOBAR` of keyword and argument, not to the raw
keyword. -/
theorem unknown_echo_cex :
    3 ≤ (Py.split ',' "CMD,1,FOO,BAR").length ∧
    Py.upper (Py.strip ((Py.split ',' "CMD,1,FOO,BAR").getD 2 "")) =
      "FOO" ∧
    (CansatSimulation.process_command CansatSimulation.initState
      "CMD,1,FOO,BAR").cmd_echo = "FOOBAR" ∧
    (CansatSimulation.process_command CansatSimulation.initState
      "CMD,1,FOO,BAR").cmd_echo ≠ "FOO" := by decide

/-- C8 (amended): for a well-formed line whose keyword is unrecognized,
`cansat_simulation.py` sets `command_echo` to the concatenation of the
stripped fields from the keyword on (so to the stripped keyword itself
when there is no argument) and mutates nothing else, while
`cansat_simulation_2026.py` (when the origin tag is `CMD`) sets it to
the upper-cased keyword and mutates nothing else. -/
theorem unknown_echo_amended :
    (∀ (s : CansatSimulation.State) (data : String),
      3 ≤ (Py.split ',' data).length →
      Py.upper (Py.strip ((Py.split ',' data).getD 2 "")) ≠ "CX" →
      Py.upper (Py.strip ((Py.split ',' data).getD 2 "")) ≠ "FLY" →
      Py.upper (Py.strip ((Py.split ',' data).getD 2 "")) ≠ "ST" →
      Py.upper (Py.strip ((Py.split ',' data).getD 2 "")) ≠ "SIM" →
      Py.upper (Py.strip ((Py.split ',' data).getD 2 "")) ≠ "CAL" →
      CansatSimulation.process_command s data =
        { s with cmd_echo :=
            (String.join (((Py.split ',' data).drop 2).map Py.strip)) }) ∧
    (∀ (s : CansatSimulation2026.State) (data : String),
      3 ≤ (Py.split ',' (Py.strip data)).length →
      (Py.split ',' (Py.strip data)).getD 0 "" = "CMD" →
      Py.upper ((Py.split ',' (Py.strip data)).getD 2 "") ≠ "CX" →
      Py.upper ((Py.split ',' (Py.strip data)).getD 2 "") ≠ "FLY" →
      Py.upper ((Py.split ',' (Py.strip data)).getD 2 "") ≠ "CAL" →
      Py.upper ((Py.split ',' (Py.strip data)).getD 2 "") ≠ "SIM" →
      Py.upper ((Py.split ',' (Py.strip data)).getD 2 "") ≠ "SET_TARGET" →
      CansatSimulation2026.process_command s data =
        { s with cmd_echo :=
            (Py.upper ((Py.split ',' (Py.strip data)).getD 2 "")) }) := by
  constructor
  · intro s data h3 hcx hfly hst hsim hcal
    have hecho : ¬ (Py.upper (Py.strip ((Py.split ',' data).getD 2 "")) =
        "CX" ∧
        (if 4 ≤ (Py.split ',' data).length then
          Py.upper (Py.strip ((Py.split ',' data).getD 3 "")) else "") ≠
          "") := fun hh => hcx hh.1
    simp only [CansatSimulation.process_command]
    rw [if_neg (Nat.not_lt.mpr h3), if_neg hecho,
      if_neg hcx, if_neg hfly, if_neg hst, if_neg hsim, if_neg hcal]
  · intro s data h3 hcmd0 hcx hfly hcal hsim htgt
    simp only [CansatSimulation2026.process_command]
    rw [if_neg (Nat.not_lt.mpr h3), if_neg (not_not_intro hcmd0),
      if_neg hcx, if_neg hfly, if_neg hcal, if_neg hsim, if_neg htgt]

/-- Witness for C8 (amended): an unrecognized keyword with no argument
echoes the keyword in both simulators. -/
theorem unknown_echo_amended_w :
    CansatSimulation.process_command CansatSimulation.initState
        "CMD,1,foo" =
      { CansatSimulation.initState with cmd_echo :=
          (String.join (((Py.split ',' "CMD,1,foo").drop 2).map
            Py.strip)) } ∧
    CansatSimulation2026.process_command CansatSimulation2026.initState
        "CMD,1,foo" =
      { CansatSimulation2026.initState with cmd_echo :=
          (Py.upper ((Py.split ',' (Py.strip "CMD,1,foo")).getD 2 "")) } :=
  ⟨unknown_echo_amended.1 _ _ (by decide) (by decide) (by decide)
      (by decide) (by decide) (by decide),
   unknown_echo_amended.2 _ _ (by decide) (by decide) (by decide)
      (by decide) (by decide) (by decide) (by decide)⟩

end UnknownEcho

section CxOnFrame

/-- C10: dispatching `CX` with argument `ON` in `cansat_simulation.py`
always clears `flight_mode` (besides enabling telemetry and zeroing the
packet count), cancelling any in-progress flight; the paraglider variant
`cansat_simulation_2026.py` leaves `flight_mode` untouched on the same
command. -/
theorem cx_on_clears_flight :
    (∀ (s : CansatSimulation.State) (data : String),
      4 ≤ (Py.split ',' data).length →
      Py.upper (Py.strip ((Py.split ',' data).getD 2 "")) = "CX" →
      Py.upper (Py.strip ((Py.split ',' data).getD 3 "")) = "ON" →
      (CansatSimulation.process_command s data).flight_mode = false ∧
      (CansatSimulation.process_command s data).telemetry_on = true ∧
      (CansatSimulation.process_command s data).packet_count = 0) ∧
    (∀ (s : CansatSimulation2026.State) (data : String),
      4 ≤ (Py.split ',' (Py.strip data)).length →
      Py.upper ((Py.split ',' (Py.strip data)).getD 2 "") = "CX" →
      Py.upper ((Py.split ',' (Py.strip data)).getD 3 "") = "ON" →
      (CansatSimulation2026.process_command s data).flight_mode =
        s.flight_mode) := by
  constructor
  · intro s data h4 hcx hon
    have heq : CansatSimulation.process_command s data =
        CansatSimulation.handle_cx "ON"
          { s with cmd_echo :=
              (if Py.upper (Py.strip ((Py.split ',' data).getD 2 "")) =
                    "CX" ∧
                  Py.upper (Py.strip ((Py.split ',' data).getD 3 "")) ≠
                    "" then
                Py.upper (Py.strip ((Py.split ',' data).getD 2 "")) ++
                  Py.upper (Py.strip ((Py.split ',' data).getD 3 ""))
              else
                String.join (((Py.split ',' data).drop 2).map Py.strip)) } := by
      simp only [CansatSimulation.process_command]
      rw [if_neg (Nat.not_lt.mpr (by omega : 3 ≤ (Py.split ',' data).length)),
        if_pos h4, hon, hcx, if_pos rfl]
    rw [heq]
    exact ⟨rfl, rfl, rfl⟩
  · intro s data h4 hcx hon
    simp only [CansatSimulation2026.process_command]
    rw [if_neg (Nat.not_lt.mpr
      (by omega : 3 ≤ (Py.split ',' (Py.strip data)).length))]
    by_cases hcmd0 : (Py.split ',' (Py.strip data)).getD 0 "" = "CMD"
    · rw [if_neg (not_not_intro hcmd0), hcx, if_pos rfl, if_pos h4, hon,
        if_pos rfl]
    · rw [if_pos hcmd0]

/-- Witness for C10: `CMD,1,CX,ON` cancels an in-progress flight in
`cansat_simulation.py` and leaves `flight_mode` set in
`cansat_simulation_2026.py`. -/
theorem cx_on_clears_flight_w :
    (CansatSimulation.process_command
      (CansatSimulation.State.mk true false true 42 "ASCENT" "FLY")
      "CMD,1,CX,ON").flight_mode = false ∧
    (CansatSimulation.process_command
      (CansatSimulation.State.mk true false true 42 "ASCENT" "FLY")
      "CMD,1,CX,ON").telemetry_on = true ∧
    (CansatSimulation.process_command
      (CansatSimulation.State.mk true false true 42 "ASCENT" "FLY")
      "CMD,1,CX,ON").packet_count = 0 ∧
    (CansatSimulation2026.process_command
      (CansatSimulation2026.State.mk 42 true true false true "FLY")
      "CMD,1,CX,ON").flight_mode =
      (CansatSimulation2026.State.mk 42 true true false true
        "FLY").flight_mode := by
  refine ⟨?_, ?_, ?_, ?_⟩
  · exact (cx_on_clears_flight.1 _ _ (by decide) (by decide) (by decide)).1
  · exact (cx_on_clears_flight.1 _ _ (by decide) (by decide) (by decide)).2.1
  · exact (cx_on_clears_flight.1 _ _ (by decide) (by decide) (by decide)).2.2
  · exact cx_on_clears_flight.2 _ _ (by decide) (by decide) (by decide)

end CxOnFrame

section SensorRanges

/-- Decimal rounding preserves bounds that are exact multiples of the
resolution: the rational `ia / 10 ^ n` form of each bound is supplied
explicitly. -/
theorem roundTo_bounds (n : Nat) (ia ib : ℤ) {x a b : ℝ}
    (hae : a = (ia : ℝ) / 10 ^ n) (hbe : b = (ib : ℝ) / 10 ^ n)
    (h1 : a ≤ x) (h2 : x ≤ b) :
    a ≤ CansatSimulation.Synth.roundTo n x ∧
      CansatSimulation.Synth.roundTo n x ≤ b := by
  subst hae
  subst hbe
  exact ⟨le_roundTo h1, roundTo_le h2⟩

/-- Counterexample to C2: on a grounded transmission tick (the state
right after `update_flight_state` on the initial state), the draw
`accel_y = 10.5` is legal — the grounded branch samples
`uniform(9.5, 10.5)` — yet the synthesized `ACCEL_Y` is `10.5`, outside
the configured `accel_range` `[-10, 10]`; so not every synthesized field
lies within its configured range. -/
theorem sensor_range_cex :
    CansatSimulation.Synth.validDraws
      (CansatSimulation.update_flight_state CansatSimulation.initState)
      { altNoise := 0.2, temperature := 20, pressure := 90, voltage := 4,
        current := 0.3, gyro_r := 0, gyro_p := 0, gyro_y := 0,
        accel_r := 0, accel_p := 0, accel_y := 10.5, gpsAltNoise := 0,
        gps_sats := 8, angle := 0, offset := 0 } ∧
    ¬ CansatSimulation.Synth.inRangeAll
      (CansatSimulation.update_flight_state CansatSimulation.initState)
      (CansatSimulation.Synth.synthFields
        (CansatSimulation.update_flight_state CansatSimulation.initState)
        { altNoise := 0.2, temperature := 20, pressure := 90, voltage := 4,
          current := 0.3, gyro_r := 0, gyro_p := 0, gyro_y := 0,
          accel_r := 0, accel_p := 0, accel_y := 10.5, gpsAltNoise := 0,
          gps_sats := 8, angle := 0, offset := 0 }) := by
  rw [show CansatSimulation.update_flight_state CansatSimulation.initState =
    CansatSimulation.initState from rfl]
  constructor
  · unfold CansatSimulation.Synth.validDraws
    rw [if_pos
        (show CansatSimulation.initState.flight_mode = false from rfl),
      if_neg (by decide :
        ¬ CansatSimulation.Synth.dynamicIMU CansatSimulation.initState)]
    refine ⟨by norm_num, by norm_num, by norm_num, by norm_num, by norm_num,
      by norm_num, by norm_num, by norm_num, ⟨le_refl 0, by positivity⟩,
      ⟨le_refl 0, ?_⟩⟩
    unfold CansatSimulation.Synth.radius
    rw [if_neg (by decide : ¬ CansatSimulation.initState.flight_mode = true)]
    norm_num
  · intro h
    obtain ⟨-, -, -, -, -, -, -, -, -, -, hay, -⟩ := h
    simp only [CansatSimulation.Synth.synthFields] at hay
    have hv : CansatSimulation.Synth.roundTo 2 (10.5 : ℝ) = 10.5 := by
      rw [show (10.5 : ℝ) = ((1050 : ℤ) : ℝ) / 10 ^ 2 by norm_num]
      exact roundTo_eq_self 2 1050
    rw [hv] at hay
    have := hay.2
    norm_num at this

/-- C2 (amended): every directly uniform-sampled scalar field lies
within its configured range — temperature, pressure, voltage, current,
the three gyro axes, `accel_r`, `accel_p` always; `accel_y` whenever the
dynamic-IMU branch (flight in `ASCENT`/`APOGEE`/`DESCENT`) is taken; the
satellite count always; and the altitude lies in the `LAUNCH_PAD` range
`[0, 0.5]` whenever the flight is inactive.  (The in-flight altitude,
the grounded `accel_y`, and the GPS altitude can leave their configured
ranges, as the counterexample shows.) -/
theorem sensor_range_amended (s : CansatSimulation.State)
    (d : CansatSimulation.Synth.Draws)
    (h : CansatSimulation.Synth.validDraws s d) :
    (5 ≤ (CansatSimulation.Synth.synthFields s d).temperature ∧
      (CansatSimulation.Synth.synthFields s d).temperature ≤ 35) ∧
    (85 ≤ (CansatSimulation.Synth.synthFields s d).pressure ∧
      (CansatSimulation.Synth.synthFields s d).pressure ≤ 103) ∧
    (3.5 ≤ (CansatSimulation.Synth.synthFields s d).voltage ∧
      (CansatSimulation.Synth.synthFields s d).voltage ≤ 4.2) ∧
    (0.1 ≤ (CansatSimulation.Synth.synthFields s d).current ∧
      (CansatSimulation.Synth.synthFields s d).current ≤ 0.5) ∧
    (-50 ≤ (CansatSimulation.Synth.synthFields s d).gyro_r ∧
      (CansatSimulation.Synth.synthFields s d).gyro_r ≤ 50) ∧
    (-50 ≤ (CansatSimulation.Synth.synthFields s d).gyro_p ∧
      (CansatSimulation.Synth.synthFields s d).gyro_p ≤ 50) ∧
    (-50 ≤ (CansatSimulation.Synth.synthFields s d).gyro_y ∧
      (CansatSimulation.Synth.synthFields s d).gyro_y ≤ 50) ∧
    (-10 ≤ (CansatSimulation.Synth.synthFields s d).accel_r ∧
      (CansatSimulation.Synth.synthFields s d).accel_r ≤ 10) ∧
    (-10 ≤ (CansatSimulation.Synth.synthFields s d).accel_p ∧
      (CansatSimulation.Synth.synthFields s d).accel_p ≤ 10) ∧
    (CansatSimulation.Synth.dynamicIMU s →
      -10 ≤ (CansatSimulation.Synth.synthFields s d).accel_y ∧
        (CansatSimulation.Synth.synthFields s d).accel_y ≤ 10) ∧
    (4 ≤ (CansatSimulation.Synth.synthFields s d).gps_sats ∧
      (CansatSimulation.Synth.synthFields s d).gps_sats ≤ 12) ∧
    (s.flight_mode = false →
      0 ≤ (CansatSimulation.Synth.synthFields s d).altitude ∧
        (CansatSimulation.Synth.synthFields s d).altitude ≤ 0.5) := by
  obtain ⟨h1, h2, h3, h4, h5, h6, h7, h8, h9, h10⟩ := h
  have hg : (-50 ≤ d.gyro_r ∧ d.gyro_r ≤ 50) ∧
      (-50 ≤ d.gyro_p ∧ d.gyro_p ≤ 50) ∧
      (-50 ≤ d.gyro_y ∧ d.gyro_y ≤ 50) ∧
      (-10 ≤ d.accel_r ∧ d.accel_r ≤ 10) ∧
      (-10 ≤ d.accel_p ∧ d.accel_p ≤ 10) ∧
      (CansatSimulation.Synth.dynamicIMU s →
        -10 ≤ d.accel_y ∧ d.accel_y ≤ 10) := by
    by_cases hdyn : CansatSimulation.Synth.dynamicIMU s
    · rw [if_pos hdyn] at h6
      exact ⟨h6.1, h6.2.1, h6.2.2.1, h6.2.2.2.1, h6.2.2.2.2.1,
        fun _ => h6.2.2.2.2.2⟩
    · rw [if_neg hdyn] at h6
      refine ⟨⟨by linarith [h6.1.1], by linarith [h6.1.2]⟩,
        ⟨by linarith [h6.2.1.1], by linarith [h6.2.1.2]⟩,
        ⟨by linarith [h6.2.2.1.1], by linarith [h6.2.2.1.2]⟩,
        ⟨by linarith [h6.2.2.2.1.1], by linarith [h6.2.2.2.1.2]⟩,
        ⟨by linarith [h6.2.2.2.2.1.1], by linarith [h6.2.2.2.2.1.2]⟩,
        fun hdd => absurd hdd hdyn⟩
  simp only [CansatSimulation.Synth.synthFields]
  refine ⟨roundTo_bounds 1 50 350 (by norm_num) (by norm_num) h2.1 h2.2,
    roundTo_bounds 1 850 1030 (by norm_num) (by norm_num) h3.1 h3.2,
    roundTo_bounds 1 35 42 (by norm_num) (by norm_num) h4.1 h4.2,
    roundTo_bounds 2 10 50 (by norm_num) (by norm_num) h5.1 h5.2,
    roundTo_bounds 2 (-5000) 5000 (by norm_num) (by norm_num) hg.1.1 hg.1.2,
    roundTo_bounds 2 (-5000) 5000 (by norm_num) (by norm_num) hg.2.1.1
      hg.2.1.2,
    roundTo_bounds 2 (-5000) 5000 (by norm_num) (by norm_num) hg.2.2.1.1
      hg.2.2.1.2,
    roundTo_bounds 2 (-1000) 1000 (by norm_num) (by norm_num) hg.2.2.2.1.1
      hg.2.2.2.1.2,
    roundTo_bounds 2 (-1000) 1000 (by norm_num) (by norm_num)
      hg.2.2.2.2.1.1 hg.2.2.2.2.1.2,
    fun hdd => roundTo_bounds 2 (-1000) 1000 (by norm_num) (by norm_num)
      (hg.2.2.2.2.2 hdd).1 (hg.2.2.2.2.2 hdd).2,
    h8, ?_⟩
  intro hfm
  rw [if_pos hfm] at h1
  unfold CansatSimulation.Synth.get_flight_altitude
  rw [hfm, if_pos rfl]
  exact roundTo_bounds 1 0 5 (by norm_num) (by norm_num) h1.1 h1.2

/-- Witness for C2 (amended) at the grounded initial state and mid-range
draws. -/
theorem sensor_range_amended_w :
    5 ≤ (CansatSimulation.Synth.synthFields CansatSimulation.initState
      { altNoise := 0.2, temperature := 21, pressure := 90, voltage := 4,
        current := 0.3, gyro_r := 1, gyro_p := 0, gyro_y := 0,
        accel_r := 0, accel_p := 0, accel_y := 10, gpsAltNoise := 0,
        gps_sats := 8, angle := 0, offset := 0 }).temperature ∧
    (CansatSimulation.Synth.synthFields CansatSimulation.initState
      { altNoise := 0.2, temperature := 21, pressure := 90, voltage := 4,
        current := 0.3, gyro_r := 1, gyro_p := 0, gyro_y := 0,
        accel_r := 0, accel_p := 0, accel_y := 10, gpsAltNoise := 0,
        gps_sats := 8, angle := 0, offset := 0 }).temperature ≤ 35 :=
  (sensor_range_amended CansatSimulation.initState _ (by
    unfold CansatSimulation.Synth.validDraws
    rw [if_pos
        (show CansatSimulation.initState.flight_mode = false from rfl),
      if_neg (by decide :
        ¬ CansatSimulation.Synth.dynamicIMU CansatSimulation.initState)]
    refine ⟨by norm_num, by norm_num, by norm_num, by norm_num, by norm_num,
      by norm_num, by norm_num, by norm_num, ⟨le_refl 0, by positivity⟩,
      ⟨le_refl 0, ?_⟩⟩
    unfold CansatSimulation.Synth.radius
    rw [if_neg (by decide : ¬ CansatSimulation.initState.flight_mode = true)]
    norm_num)).1

end SensorRanges

section GpsRadius

/-- One leg of a right triangle is at most the hypotenuse. -/
theorem abs_le_sqrt_sq_add (x w : ℝ) : |x| ≤ Real.sqrt (x ^ 2 + w ^ 2) := by
  rw [← Real.sqrt_sq_eq_abs]
  exact Real.sqrt_le_sqrt (by nlinarith [sq_nonneg w])

/-- The cosine of the base latitude (≈ −7.28°, inside (−90°, 90°)) is
positive. -/
theorem cos_base_pos :
    0 < Real.cos (CansatSimulation.Synth.BASE_LAT * Real.pi / 180) := by
  apply Real.cos_pos_of_mem_Ioo
  unfold CansatSimulation.Synth.BASE_LAT
  constructor
  · show -(Real.pi / 2) < _
    nlinarith [Real.pi_pos]
  · show _ < Real.pi / 2
    nlinarith [Real.pi_pos]

/-- The sampling radius never exceeds `MAX_DISTANCE_KM` kilometers
(`2 / 111` degrees). -/
theorem radius_le_max (s : CansatSimulation.State) :
    CansatSimulation.Synth.radius s ≤ 2 / 111 := by
  unfold CansatSimulation.Synth.radius CansatSimulation.Synth.MAX_DISTANCE_KM
  split_ifs
  · have hm : min ((s.packet_count : ℝ) / 100) 1 ≤ 1 := min_le_right _ _
    rw [div_le_div_iff_of_pos_right (by norm_num : (0:ℝ) < 111)]
    linarith
  · norm_num

/-- Counterexample to C9: in flight at packet count 100 the sampling
radius is exactly `2 / 111` degrees; drawing bearing `0` and the maximal
offset `2 / 111` (both legal draws), the rounding of the latitude to 4
decimal places pushes the fix to equirectangular distance
≈ 2.0051 km > `MAX_DISTANCE_KM` = 2.0 km from the base coordinate. -/
theorem gps_radius_cex :
    (0 : ℝ) ≤ 0 ∧ (0 : ℝ) ≤ 2 * Real.pi ∧ (0 : ℝ) ≤ 2 / 111 ∧
    (2 / 111 : ℝ) ≤ CansatSimulation.Synth.radius
      (CansatSimulation.State.mk true false true 100 "LANDED" "FLY") ∧
    CansatSimulation.Synth.MAX_DISTANCE_KM <
      CansatSimulation.Synth.equirect_km
        (CansatSimulation.Synth.random_coordinates 0 (2 / 111)).1
        (CansatSimulation.Synth.random_coordinates 0 (2 / 111)).2 := by
  refine ⟨le_refl 0, by positivity, by norm_num, ?_, ?_⟩
  · unfold CansatSimulation.Synth.radius
    rw [if_pos (show (CansatSimulation.State.mk true false true 100
      "LANDED" "FLY").flight_mode = true from rfl)]
    unfold CansatSimulation.Synth.MAX_DISTANCE_KM
    norm_num
  · have hlat : (CansatSimulation.Synth.random_coordinates 0
        (2 / 111)).1 = -72577 / 10 ^ 4 := by
      simp only [CansatSimulation.Synth.random_coordinates]
      rw [Real.cos_zero, mul_one]
      unfold CansatSimulation.Synth.roundTo
      rw [round_eq]
      have hfl : ⌊(CansatSimulation.Synth.BASE_LAT + 2 / 111) * 10 ^ 4 +
          1 / 2⌋ = (-72577 : ℤ) := by
        rw [Int.floor_eq_iff]
        unfold CansatSimulation.Synth.BASE_LAT
        constructor
        · push_cast
          norm_num
        · push_cast
          norm_num
      rw [hfl]
      norm_num
    rw [hlat]
    unfold CansatSimulation.Synth.equirect_km
      CansatSimulation.Synth.MAX_DISTANCE_KM
    have hx : ((-72577 : ℝ) / 10 ^ 4 - CansatSimulation.Synth.BASE_LAT) =
        18063964907654 / 10 ^ 15 := by
      unfold CansatSimulation.Synth.BASE_LAT
      norm_num
    rw [hx]
    have hs := abs_le_sqrt_sq_add (18063964907654 / 10 ^ 15 : ℝ)
      (((CansatSimulation.Synth.random_coordinates 0 (2 / 111)).2 -
          CansatSimulation.Synth.BASE_LON) *
        Real.cos (CansatSimulation.Synth.BASE_LAT * Real.pi / 180))
    rw [abs_of_pos (by norm_num)] at hs
    nlinarith [hs]


namespace CansatSimulation2026

/-- `base_lat` of `cansat_simulation_2026.py` (Surabaya area). -/
noncomputable def base_lat : ℝ := -7.275764

/-- `base_lon` of `cansat_simulation_2026.py`. -/
noncomputable def base_lon : ℝ := 112.794317

/-- `max_drift_km` of `cansat_simulation_2026.py`. -/
noncomputable def max_drift_km : ℝ := 2.0

/-- The sampling radius (in degrees) of `get_gps_coordinates`: in flight
mode `max_drift_km * min(packet_count / 100, 1) / 111`, on the ground
the fixed `0.0001` degrees. -/
noncomputable def gps_radius (s : State) : ℝ :=
  if s.flight_mode = true then
    max_drift_km * min ((s.packet_count : ℝ) / 100) 1 / 111
  else 0.0001

/-- `get_gps_coordinates`: offset the base coordinate by a drawn bearing
`angle ∈ [0, 2π]` and radial `offset ∈ [0, gps_radius]`
(equirectangular: the longitude offset is scaled by
`1 / cos(radians(base_lat))`), rounding both coordinates to 6 decimal
places. -/
noncomputable def get_gps_coordinates (angle offset : ℝ) : ℝ × ℝ :=
  let lat_offset := offset * Real.cos angle
  let lon_offset :=
    offset * Real.sin angle / Real.cos (base_lat * Real.pi / 180)
  (CansatSimulation.Synth.roundTo 6 (base_lat + lat_offset),
   CansatSimulation.Synth.roundTo 6 (base_lon + lon_offset))

end CansatSimulation2026

namespace TelemetryGenerator

/-- `BASE_LAT` of `telemetry_generator.py`. -/
noncomputable def BASE_LAT : ℝ := -7.275823

/-- `BASE_LON` of `telemetry_generator.py`. -/
noncomputable def BASE_LON : ℝ := 112.794301

/-- `MAX_DISTANCE_KM` of `telemetry_generator.py`. -/
noncomputable def MAX_DISTANCE_KM : ℝ := 0.5

/-- `random_coordinates` of `telemetry_generator.py`: the fixed sampling
radius `MAX_DISTANCE_KM / 111` degrees, a drawn bearing and radial
offset, equirectangular conversion, rounding to 6 decimal places. -/
noncomputable def random_coordinates (angle offset : ℝ) : ℝ × ℝ :=
  let lat_offset := offset * Real.cos angle
  let lon_offset :=
    offset * Real.sin angle / Real.cos (BASE_LAT * Real.pi / 180)
  (CansatSimulation.Synth.roundTo 6 (BASE_LAT + lat_offset),
   CansatSimulation.Synth.roundTo 6 (BASE_LON + lon_offset))

end TelemetryGenerator

/-- Equirectangular distance (km) between a fix and a configurable base
coordinate: latitude offset and cosine-scaled longitude offset, 111 km
per degree. -/
noncomputable def equirectDist (blat blon lat lon : ℝ) : ℝ :=
  111 * Real.sqrt ((lat - blat) ^ 2 +
    ((lon - blon) * Real.cos (blat * Real.pi / 180)) ^ 2)

/-- `equirect_km` is the generic equirectangular distance taken at the
base coordinate of `cansat_simulation.py`. -/
theorem equirect_km_eq (lat lon : ℝ) :
    CansatSimulation.Synth.equirect_km lat lon =
      equirectDist CansatSimulation.Synth.BASE_LAT
        CansatSimulation.Synth.BASE_LON lat lon := rfl

/-- The cosine of any degree-latitude strictly between −90° and 90° is
positive. -/
theorem cos_deg_pos {blat : ℝ} (h1 : -90 < blat) (h2 : blat < 90) :
    0 < Real.cos (blat * Real.pi / 180) := by
  apply Real.cos_pos_of_mem_Ioo
  constructor
  · show -(Real.pi / 2) < _
    nlinarith [mul_pos Real.pi_pos (show (0:ℝ) < blat + 90 by linarith)]
  · show _ < Real.pi / 2
    nlinarith [mul_pos Real.pi_pos (show (0:ℝ) < 90 - blat by linarith)]

set_option maxHeartbeats 1000000 in
/-- Core bound shared by all three GPS synthesizers: a fix produced by
offsetting the base coordinate by a radial `offset ≤ R` along any
bearing, with the longitude scaled by `1 / cos(radians(blat))`, and both
coordinates rounded to `n` decimal places, lies within `111 * R` km of
the base under the equirectangular distance, plus the rounding slack of
`111 / 10 ^ n` km. -/
theorem equirect_round_bound (blat blon : ℝ) (n : Nat)
    (angle offset R : ℝ)
    (hcpos : 0 < Real.cos (blat * Real.pi / 180))
    (h0 : 0 ≤ offset) (hr : offset ≤ R) :
    equirectDist blat blon
        (CansatSimulation.Synth.roundTo n (blat + offset * Real.cos angle))
        (CansatSimulation.Synth.roundTo n (blon + offset * Real.sin angle /
          Real.cos (blat * Real.pi / 180))) ≤
      111 * R + 111 / 10 ^ n := by
  simp only [equirectDist]
  set c := Real.cos (blat * Real.pi / 180) with hcdef
  have hcne : c ≠ 0 := ne_of_gt hcpos
  have hc1 : |c| ≤ 1 := Real.abs_cos_le_one _
  set h := 1 / (2 * (10:ℝ) ^ n) with hdef
  have h2h : 2 * h = 1 / 10 ^ n := by
    rw [hdef]
    field_simp
  set a := offset * Real.cos angle with hadef
  set b := offset * Real.sin angle / c with hbdef
  have he1 := abs_roundTo_sub n (blat + a)
  have he2 := abs_roundTo_sub n (blon + b)
  set e1 := CansatSimulation.Synth.roundTo n (blat + a) - (blat + a)
    with he1d
  set e2 := CansatSimulation.Synth.roundTo n (blon + b) - (blon + b)
    with he2d
  have hA : CansatSimulation.Synth.roundTo n (blat + a) - blat =
      a + e1 := by
    rw [he1d]; ring
  have hbc : b * c = offset * Real.sin angle := div_mul_cancel₀ _ hcne
  have hB : (CansatSimulation.Synth.roundTo n (blon + b) - blon) * c =
      offset * Real.sin angle + e2 * c := by
    have hx : CansatSimulation.Synth.roundTo n (blon + b) - blon =
        b + e2 := by
      rw [he2d]; ring
    rw [hx, add_mul, hbc]
  rw [hA, hB]
  have habs_a : |a| ≤ offset := by
    calc |a| = |offset| * |Real.cos angle| := by rw [hadef, abs_mul]
      _ ≤ offset * 1 := by
          apply mul_le_mul (le_of_eq (abs_of_nonneg h0))
            (Real.abs_cos_le_one angle) (abs_nonneg _) h0
      _ = offset := mul_one offset
  have habs_s : |offset * Real.sin angle| ≤ offset := by
    calc |offset * Real.sin angle| = |offset| * |Real.sin angle| :=
          abs_mul _ _
      _ ≤ offset * 1 := by
          apply mul_le_mul (le_of_eq (abs_of_nonneg h0))
            (Real.abs_sin_le_one angle) (abs_nonneg _) h0
      _ = offset := mul_one offset
  have habs_f : |e2 * c| ≤ h := by
    calc |e2 * c| = |e2| * |c| := abs_mul _ _
      _ ≤ h * 1 := mul_le_mul he2 hc1 (abs_nonneg _) (by positivity)
      _ = h := mul_one _
  have hp1 : a * e1 ≤ offset * h := by
    calc a * e1 ≤ |a * e1| := le_abs_self _
      _ = |a| * |e1| := abs_mul _ _
      _ ≤ offset * h := mul_le_mul habs_a he1 (abs_nonneg _) h0
  have hp2 : (offset * Real.sin angle) * (e2 * c) ≤ offset * h := by
    calc (offset * Real.sin angle) * (e2 * c) ≤
          |(offset * Real.sin angle) * (e2 * c)| := le_abs_self _
      _ = |offset * Real.sin angle| * |e2 * c| := abs_mul _ _
      _ ≤ offset * h := mul_le_mul habs_s habs_f (abs_nonneg _) h0
  have hsq1 : e1 ^ 2 ≤ h ^ 2 := by
    have hb := abs_le.mp he1
    exact sq_le_sq' (by linarith [hb.1]) hb.2
  have hsq2 : (e2 * c) ^ 2 ≤ h ^ 2 := by
    have hb := abs_le.mp habs_f
    exact sq_le_sq' (by linarith [hb.1]) hb.2
  have har : a ^ 2 + (offset * Real.sin angle) ^ 2 = offset ^ 2 := by
    rw [hadef]
    have hsc := Real.sin_sq_add_cos_sq angle
    linear_combination offset ^ 2 * hsc
  have hmain : (a + e1) ^ 2 + (offset * Real.sin angle + e2 * c) ^ 2 ≤
      (offset + 2 * h) ^ 2 := by
    nlinarith [hp1, hp2, hsq1, hsq2, har, h0,
      mul_pos (show (0:ℝ) < 2 by norm_num)
        (show (0:ℝ) < h by rw [hdef]; positivity)]
  have hnn : (0 : ℝ) ≤ offset + 2 * h := by
    have : (0:ℝ) < h := by rw [hdef]; positivity
    linarith
  have hsqrt : Real.sqrt ((a + e1) ^ 2 +
      (offset * Real.sin angle + e2 * c) ^ 2) ≤ offset + 2 * h := by
    calc Real.sqrt ((a + e1) ^ 2 +
          (offset * Real.sin angle + e2 * c) ^ 2) ≤
          Real.sqrt ((offset + 2 * h) ^ 2) := Real.sqrt_le_sqrt hmain
      _ = offset + 2 * h := Real.sqrt_sq hnn
  have hscaled := mul_le_mul_of_nonneg_left hsqrt
    (by norm_num : (0 : ℝ) ≤ 111)
  have hgoal : (111 : ℝ) / 10 ^ n = 111 * (2 * h) := by
    rw [h2h]
    ring
  rw [hgoal]
  linarith [hscaled, hr]

/-- The paraglider variant's sampling radius never exceeds
`max_drift_km` kilometers (`2 / 111` degrees). -/
theorem gps_radius_le_max2026 (s : CansatSimulation2026.State) :
    CansatSimulation2026.gps_radius s ≤ 2 / 111 := by
  unfold CansatSimulation2026.gps_radius CansatSimulation2026.max_drift_km
  split_ifs
  · have hm : min ((s.packet_count : ℝ) / 100) 1 ≤ 1 := min_le_right _ _
    rw [div_le_div_iff_of_pos_right (by norm_num : (0:ℝ) < 111)]
    linarith
  · norm_num

/-- C9 (amended): every synthesized GPS fix — from `random_coordinates`
of `cansat_simulation.py`, `get_gps_coordinates` of
`cansat_simulation_2026.py`, and `random_coordinates` of
`telemetry_generator.py` — lies within its mission-configured maximum
radius of its base coordinate under the equirectangular distance, plus
the slack of one unit in the last rounded decimal place (`111 / 10 ^ 4`
km for the 4-decimal rounding of `cansat_simulation.py`, `111 / 10 ^ 6`
km for the 6-decimal rounding of the other two); in both simulators the
sampling radius is monotone in the packet count while the flight is
active and never exceeds the configured 2.0 km maximum, and while
grounded it is a small fixed jitter (`0.1 / 111` degrees in
`cansat_simulation.py`, `0.0001` degrees in
`cansat_simulation_2026.py`); `telemetry_generator.py` uses the constant
radius `MAX_DISTANCE_KM / 111` = `0.5 / 111` degrees. -/
theorem gps_radius_amended :
    (∀ (s : CansatSimulation.State) (angle offset : ℝ),
      0 ≤ offset → offset ≤ CansatSimulation.Synth.radius s →
      CansatSimulation.Synth.equirect_km
          (CansatSimulation.Synth.random_coordinates angle offset).1
          (CansatSimulation.Synth.random_coordinates angle offset).2 ≤
        CansatSimulation.Synth.MAX_DISTANCE_KM + 111 / 10 ^ 4) ∧
    (∀ (s : CansatSimulation2026.State) (angle offset : ℝ),
      0 ≤ offset → offset ≤ CansatSimulation2026.gps_radius s →
      equirectDist CansatSimulation2026.base_lat
          CansatSimulation2026.base_lon
          (CansatSimulation2026.get_gps_coordinates angle offset).1
          (CansatSimulation2026.get_gps_coordinates angle offset).2 ≤
        CansatSimulation2026.max_drift_km + 111 / 10 ^ 6) ∧
    (∀ angle offset : ℝ,
      0 ≤ offset → offset ≤ TelemetryGenerator.MAX_DISTANCE_KM / 111 →
      equirectDist TelemetryGenerator.BASE_LAT TelemetryGenerator.BASE_LON
          (TelemetryGenerator.random_coordinates angle offset).1
          (TelemetryGenerator.random_coordinates angle offset).2 ≤
        TelemetryGenerator.MAX_DISTANCE_KM + 111 / 10 ^ 6) ∧
    (∀ s t : CansatSimulation.State, s.flight_mode = true →
      t.flight_mode = true → s.packet_count ≤ t.packet_count →
      CansatSimulation.Synth.radius s ≤ CansatSimulation.Synth.radius t) ∧
    (∀ s t : CansatSimulation2026.State, s.flight_mode = true →
      t.flight_mode = true → s.packet_count ≤ t.packet_count →
      CansatSimulation2026.gps_radius s ≤
        CansatSimulation2026.gps_radius t) ∧
    (∀ s : CansatSimulation.State,
      CansatSimulation.Synth.radius s * 111 ≤
        CansatSimulation.Synth.MAX_DISTANCE_KM) ∧
    (∀ s : CansatSimulation2026.State,
      CansatSimulation2026.gps_radius s * 111 ≤
        CansatSimulation2026.max_drift_km) ∧
    (∀ s : CansatSimulation.State, s.flight_mode = false →
      CansatSimulation.Synth.radius s = 0.1 / 111) ∧
    (∀ s : CansatSimulation2026.State, s.flight_mode = false →
      CansatSimulation2026.gps_radius s = 0.0001) := by
  refine ⟨?_, ?_, ?_, ?_, ?_, ?_, ?_, ?_, ?_⟩
  · intro s angle offset h0 hr
    have hb := equirect_round_bound CansatSimulation.Synth.BASE_LAT
      CansatSimulation.Synth.BASE_LON 4 angle offset
      (CansatSimulation.Synth.radius s) cos_base_pos h0 hr
    have hrm := radius_le_max s
    simp only [CansatSimulation.Synth.random_coordinates]
    rw [equirect_km_eq]
    unfold CansatSimulation.Synth.MAX_DISTANCE_KM
    linarith [hb, hrm]
  · intro s angle offset h0 hr
    have hb := equirect_round_bound CansatSimulation2026.base_lat
      CansatSimulation2026.base_lon 6 angle offset
      (CansatSimulation2026.gps_radius s)
      (cos_deg_pos
        (by unfold CansatSimulation2026.base_lat; norm_num)
        (by unfold CansatSimulation2026.base_lat; norm_num)) h0 hr
    have hrm := gps_radius_le_max2026 s
    simp only [CansatSimulation2026.get_gps_coordinates]
    unfold CansatSimulation2026.max_drift_km
    linarith [hb, hrm]
  · intro angle offset h0 hr
    have hb := equirect_round_bound TelemetryGenerator.BASE_LAT
      TelemetryGenerator.BASE_LON 6 angle offset
      (TelemetryGenerator.MAX_DISTANCE_KM / 111)
      (cos_deg_pos
        (by unfold TelemetryGenerator.BASE_LAT; norm_num)
        (by unfold TelemetryGenerator.BASE_LAT; norm_num)) h0 hr
    have hmm : 111 * (TelemetryGenerator.MAX_DISTANCE_KM / 111) =
        TelemetryGenerator.MAX_DISTANCE_KM := by
      unfold TelemetryGenerator.MAX_DISTANCE_KM
      norm_num
    simp only [TelemetryGenerator.random_coordinates]
    linarith [hb, hmm.le, hmm.ge]
  · intro s t hs ht hc
    unfold CansatSimulation.Synth.radius
    rw [if_pos hs, if_pos ht]
    have hm : min ((s.packet_count : ℝ) / 100) 1 ≤
        min ((t.packet_count : ℝ) / 100) 1 := by
      apply min_le_min _ (le_refl 1)
      have : (s.packet_count : ℝ) ≤ (t.packet_count : ℝ) := by
        exact_mod_cast hc
      linarith
    rw [div_le_div_iff_of_pos_right (by norm_num : (0:ℝ) < 111)]
    unfold CansatSimulation.Synth.MAX_DISTANCE_KM
    linarith [hm]
  · intro s t hs ht hc
    unfold CansatSimulation2026.gps_radius
    rw [if_pos hs, if_pos ht]
    have hm : min ((s.packet_count : ℝ) / 100) 1 ≤
        min ((t.packet_count : ℝ) / 100) 1 := by
      apply min_le_min _ (le_refl 1)
      have : (s.packet_count : ℝ) ≤ (t.packet_count : ℝ) := by
        exact_mod_cast hc
      linarith
    rw [div_le_div_iff_of_pos_right (by norm_num : (0:ℝ) < 111)]
    unfold CansatSimulation2026.max_drift_km
    linarith [hm]
  · intro s
    have := radius_le_max s
    unfold CansatSimulation.Synth.MAX_DISTANCE_KM
    linarith [this]
  · intro s
    have := gps_radius_le_max2026 s
    unfold CansatSimulation2026.max_drift_km
    linarith [this]
  · intro s hf
    unfold CansatSimulation.Synth.radius
    rw [if_neg (show ¬ s.flight_mode = true by rw [hf]; decide)]
  · intro s hf
    unfold CansatSimulation2026.gps_radius
    rw [if_neg (show ¬ s.flight_mode = true by rw [hf]; decide)]

/-- Witness for C9 (amended): grounded states with bearing 0 and offset
0 yield fixes within the slackened radii for all three synthesizers, and
both grounded radii are the fixed jitters. -/
theorem gps_radius_amended_w :
    CansatSimulation.Synth.equirect_km
        (CansatSimulation.Synth.random_coordinates 0 0).1
        (CansatSimulation.Synth.random_coordinates 0 0).2 ≤
      CansatSimulation.Synth.MAX_DISTANCE_KM + 111 / 10 ^ 4 ∧
    equirectDist CansatSimulation2026.base_lat CansatSimulation2026.base_lon
        (CansatSimulation2026.get_gps_coordinates 0 0).1
        (CansatSimulation2026.get_gps_coordinates 0 0).2 ≤
      CansatSimulation2026.max_drift_km + 111 / 10 ^ 6 ∧
    equirectDist TelemetryGenerator.BASE_LAT TelemetryGenerator.BASE_LON
        (TelemetryGenerator.random_coordinates 0 0).1
        (TelemetryGenerator.random_coordinates 0 0).2 ≤
      TelemetryGenerator.MAX_DISTANCE_KM + 111 / 10 ^ 6 ∧
    CansatSimulation.Synth.radius CansatSimulation.initState = 0.1 / 111 ∧
    CansatSimulation2026.gps_radius CansatSimulation2026.initState =
      0.0001 :=
  ⟨gps_radius_amended.1 CansatSimulation.initState 0 0 (le_refl 0)
    (by unfold CansatSimulation.Synth.radius
        rw [if_neg (by decide :
          ¬ CansatSimulation.initState.flight_mode = true)]
        norm_num),
   gps_radius_amended.2.1 CansatSimulation2026.initState 0 0 (le_refl 0)
    (by unfold CansatSimulation2026.gps_radius
        rw [if_neg (by decide :
          ¬ CansatSimulation2026.initState.flight_mode = true)]
        norm_num),
   gps_radius_amended.2.2.1 0 0 (le_refl 0)
    (by unfold TelemetryGenerator.MAX_DISTANCE_KM; norm_num),
   gps_radius_amended.2.2.2.2.2.2.2.1 CansatSimulation.initState rfl,
   gps_radius_amended.2.2.2.2.2.2.2.2 CansatSimulation2026.initState rfl⟩

end GpsRadius
